import Mathlib

/-!
# Verification of the Enet Smart Home event coordinator

Shallow embedding of `custom_components/enet/__init__.py` (the
`EnetCoordinator` class): the channel registry built by
`setup_event_listeners`, the per-event decoding and dispatch logic of
`handle_event`, and the polling loop `_async_update_data`.

Python dictionaries become association lists, dynamic values in the
`values` payload become the `PyVal` sum (string or integer), and the one
operation that can raise a `TypeError` at runtime — comparing a event
value against `0` with `>` — becomes a fallible `pyGtZero` returning
`Except`.  Channel objects from `aioenet.py` (not part of the analysed
source) are modelled as tagged records; their `update_values` method is
modelled from the spec.
-/

set_option autoImplicit false

namespace Enet

/-- A JSON-ish dynamic value carried in an event's `values` payload:
either a string (e.g. `"DOWN_BUTTON"`) or an integer (e.g. a switch
time). -/
inductive PyVal where
  | str : String → PyVal
  | int : Int → PyVal
deriving DecidableEq, Repr

/-- Python `value > 0`: defined for integers, raises `TypeError` when the
value is a string (as CPython does for `str > int`). -/
def pyGtZero : PyVal → Except String Bool
  | PyVal.int n => Except.ok (0 < n)
  | PyVal.str _ => Except.error "TypeError"

/-- One entry of the `values` array of an event:
`\x7bvalueTypeID, value\x7d`. -/
structure ValueEntry where
  valueTypeID : String
  value : PyVal
deriving DecidableEq, Repr

/-- The `eventData` payload of a raw event. -/
structure EventData where
  deviceFunctionUID : String
  values : List ValueEntry
  channelNumber : Int
deriving DecidableEq, Repr

/-- One raw event of a batch: its `event` kind string and its
`eventData`. -/
structure RawEvent where
  event : String
  eventData : EventData
deriving DecidableEq, Repr

/-- The device object a channel points back to, as used when building
`bus_data`: `device.device.hass_device_entry.id` and
`device.device.uid`. -/
structure DeviceInfo where
  hass_device_entry_id : String
  uid : String
deriving DecidableEq, Repr

/-- The runtime class of a registered channel object: `ActuatorChannel`,
`SensorChannel`, or any other (event/button) channel. -/
inductive ChannelKind where
  | actuator
  | sensor
  | eventChannel
deriving DecidableEq, Repr

/-- A channel registered in `function_uid_map`.  `cached_state` is the
state a stateful channel caches via `update_values`. -/
structure Channel where
  kind : ChannelKind
  device : DeviceInfo
  cached_state : Option (String × List ValueEntry)
deriving DecidableEq, Repr

/-- `isinstance(device, ActuatorChannel) or isinstance(device, SensorChannel)`. -/
def Channel.isStateful (c : Channel) : Prop :=
  c.kind = ChannelKind.actuator ∨ c.kind = ChannelKind.sensor

instance (c : Channel) : Decidable c.isStateful := by
  unfold Channel.isStateful; infer_instance

/-- Modelled from the spec: `ActuatorChannel.update_values` /
`SensorChannel.update_values` live in `aioenet.py`, which is not part of
the analysed source; the spec says a stateful channel "supports
`update_values(function_uid, values)` which overwrites its cached
state". -/
def Channel.update_values (c : Channel) (function_uid : String)
    (values : List ValueEntry) : Channel :=
  { c with cached_state := some (function_uid, values) }

/-- Modelled from the spec: `device.get_function_uids_for_event()`
(`aioenet.py`, not in the analysed source) returns the device's declared
`FunctionUID → Channel` mapping; a device is modelled as carrying that
mapping as data. -/
structure EnetDevice where
  func_uids : List (String × Channel)
deriving DecidableEq, Repr

/-! ## Python dict operations for `function_uid_map` -/

/-- `d[k] = v` on a Python dict represented as an association list:
overwrite in place if the key exists, else append. -/
def dictInsert (m : List (String × Channel)) (k : String) (v : Channel) :
    List (String × Channel) :=
  match m with
  | [] => [(k, v)]
  | (k0, v0) :: rest =>
      if k0 = k then (k, v) :: rest else (k0, v0) :: dictInsert rest k v

/-- `d.update(es)` on a Python dict: insert every pair of `es` in order,
later pairs overwriting earlier ones. -/
def dictUpdate (m : List (String × Channel)) (es : List (String × Channel)) :
    List (String × Channel) :=
  es.foldl (fun acc kv => dictInsert acc kv.1 kv.2) m

/-- `d.get(k)` on a Python dict: `some` the stored value, `none` when the
key is absent. -/
def dictGet (m : List (String × Channel)) (k : String) : Option Channel :=
  match m with
  | [] => none
  | (k0, v) :: rest => if k0 = k then some v else dictGet rest k

/-! ## Constants of `__init__.py` -/

def EVENT_TYPE_OUTPUT_DEVICE_FUNCTION_CALLED : String := "outputDeviceFunctionCalled"
def EVENT_TYPE_INITIAL_PRESS : String := "initial_press"
def EVENT_TYPE_SHORT_RELEASE : String := "short_release"
def VALUE_TYPE_ROCKER_STATE : String := "VT_ROCKER_STATE"
def VALUE_TYPE_ROCKER_SWITCH_TIME : String := "VT_ROCKER_SWITCH_TIME"
def EVENT_ENET : String := "enet_event"

/-- The `bus_data` dictionary fired on the host event bus for a decoded
button event. -/
structure BusData where
  device_id : String
  unique_id : String
  type : String
  subtype : Int
deriving DecidableEq, Repr

/-- Observable state of the coordinator: the registry
`function_uid_map`, plus the traces of its outward effects — bus events
fired (`hass.bus.async_fire`), `update_values` calls made on stateful
channels, listener fan-outs (`async_update_listeners`), and warnings
logged (`_LOGGER.warning`). -/
structure CoordState where
  function_uid_map : List (String × Channel)
  bus_events : List BusData
  update_calls : List (String × List ValueEntry)
  listener_notify_count : Nat
  warnings : List String
deriving DecidableEq, Repr

/-- `EnetCoordinator.setup_event_listeners`: fold every device's declared
`FunctionUID → Channel` pairs into `function_uid_map` with
`dict.update`. -/
def setup_event_listeners (devices : List EnetDevice) :
    List (String × Channel) :=
  devices.foldl (fun m d => dictUpdate m d.func_uids) []

/-- The body of the `for event in event_data["events"]` loop of
`EnetCoordinator.handle_event`, for one raw event.  `Except.error`
models an uncaught Python exception escaping the loop body. -/
def handle_one_event (co : CoordState) (ev : RawEvent) :
    Except String CoordState :=
  if ev.event = EVENT_TYPE_OUTPUT_DEVICE_FUNCTION_CALLED then
    let data := ev.eventData
    let function_uid := data.deviceFunctionUID
    match dictGet co.function_uid_map function_uid with
    | none =>
        -- `_LOGGER.warning("Function %s does not map to device", ...)` ; continue
        Except.ok { co with warnings := co.warnings ++ ["Function does not map to device"] }
    | some device =>
        let values := data.values
        if device.isStateful then
          -- `device.update_values(function_uid, values)` mutates the
          -- channel in place; the registry entry is the same object, so
          -- the map now holds the updated channel.  Then
          -- `self.async_update_listeners()`.
          Except.ok { co with
            function_uid_map :=
              dictInsert co.function_uid_map function_uid
                (device.update_values function_uid values),
            update_calls := co.update_calls ++ [(function_uid, values)],
            listener_notify_count := co.listener_notify_count + 1 }
        else
          let subtype := data.channelNumber
          match values with
          | [v0, v1] =>
              let subtype :=
                if v0.valueTypeID = VALUE_TYPE_ROCKER_STATE then
                  if v0.value = PyVal.str "DOWN_BUTTON" then subtype + 1
                  else subtype
                else subtype
              if v1.valueTypeID = VALUE_TYPE_ROCKER_SWITCH_TIME then
                match pyGtZero v1.value with
                | Except.error e => Except.error e
                | Except.ok b =>
                    let event_type :=
                      if b then EVENT_TYPE_SHORT_RELEASE
                      else EVENT_TYPE_INITIAL_PRESS
                    Except.ok { co with bus_events := co.bus_events ++
                      [{ device_id := device.device.hass_device_entry_id,
                         unique_id := device.device.uid,
                         type := event_type, subtype := subtype }] }
              else
                Except.ok { co with bus_events := co.bus_events ++
                  [{ device_id := device.device.hass_device_entry_id,
                     unique_id := device.device.uid,
                     type := EVENT_TYPE_INITIAL_PRESS, subtype := subtype }] }
          | _ =>
              -- `if len(values) != 2:` — warn and continue
              Except.ok { co with warnings := co.warnings ++ ["Expected 2 values"] }
  else
    Except.ok co

/-- `EnetCoordinator.handle_event`: iterate the batch in order; an
exception raised by an event aborts the remainder of the batch and
escapes (second component `some e`). -/
def handle_event (co : CoordState) (events : List RawEvent) :
    CoordState × Option String :=
  match events with
  | [] => (co, none)
  | ev :: rest =>
      match handle_one_event co ev with
      | Except.error e => (co, some e)
      | Except.ok co2 => handle_event co2 rest

/-- `EnetCoordinator._async_update_data`: `while True:` fetch a batch
(`none` models a falsy `get_events()` result, skipped); a truthy batch is
passed to `handle_event` inside `try`; on exception the code logs and
does `raise UpdateFailed from e`, which leaves the `while` loop — the
remaining fetches are returned unconsumed.  The fetch list is the fuel:
exhausting it with second component `none` means the loop is still
polling. -/
def async_update_data (co : CoordState)
    (fetches : List (Option (List RawEvent))) :
    CoordState × Option String × List (Option (List RawEvent)) :=
  match fetches with
  | [] => (co, none, [])
  | none :: rest => async_update_data co rest
  | some events :: rest =>
      match handle_event co events with
      | (co2, none) => async_update_data co2 rest
      | (co2, some e) => (co2, some e, rest)

/-! ## Concrete fixtures -/

/-- A registered non-stateful (event/button) channel. -/
def sampleButtonChannel : Channel :=
  ⟨ChannelKind.eventChannel, ⟨"entry1", "dev1"⟩, none⟩

/-- A registered actuator (stateful) channel. -/
def sampleActuator : Channel :=
  ⟨ChannelKind.actuator, ⟨"entry2", "dev2"⟩, none⟩

/-- A coordinator state with one button channel at `"u1"` and one
actuator at `"u2"`, no effects recorded yet. -/
def sampleState : CoordState :=
  ⟨[("u1", sampleButtonChannel), ("u2", sampleActuator)], [], [], 0, []⟩

/-- Event whose second value is a string, so that
`values[1]["value"] > 0` raises `TypeError` in Python. -/
def c1_bad_event : RawEvent :=
  ⟨"outputDeviceFunctionCalled",
   ⟨"u1", [⟨"VT_ROCKER_STATE", PyVal.str "UP_BUTTON"⟩,
           ⟨"VT_ROCKER_SWITCH_TIME", PyVal.str "oops"⟩], 1⟩⟩

/-- A well-formed rocker press event (decodes to one button event). -/
def c1_good_event : RawEvent :=
  ⟨"outputDeviceFunctionCalled",
   ⟨"u1", [⟨"VT_ROCKER_STATE", PyVal.str "DOWN_BUTTON"⟩,
           ⟨"VT_ROCKER_SWITCH_TIME", PyVal.int 0⟩], 3⟩⟩

/-! ## C1 — exception in a batch terminates the poll loop -/

/-- C1: the claim says an exception while handling a batch is caught and
the loop re-enters `Polling` and keeps consuming batches.  The code
(`_async_update_data`) instead does `raise UpdateFailed from e`, which
leaves the `while True` loop: at this concrete input the first batch
raises `TypeError`, the loop returns with the error, the second (well
formed) batch is left unconsumed, and its button event is never fired —
although consuming that second batch alone would fire it and keep
polling. -/
theorem enet_c1 :
    async_update_data sampleState [some [c1_bad_event], some [c1_good_event]]
        = (sampleState, some "TypeError", [some [c1_good_event]])
    ∧ async_update_data sampleState [some [c1_good_event]]
        = ({ sampleState with
              bus_events := [⟨"entry1", "dev1", "initial_press", 4⟩] },
           none, []) := by
  decide

/-! ## C2 — rocker DOWN press decoding -/

/-- The concrete event of the claim, with the spec's literal
`valueTypeID` strings. -/
def c2_literal_event : RawEvent :=
  ⟨"outputDeviceFunctionCalled",
   ⟨"u1", [⟨"rocker state", PyVal.str "DOWN_BUTTON"⟩,
           ⟨"rocker switch time", PyVal.int 0⟩], 3⟩⟩

/-- The button event the code actually emits for `c2_literal_event`. -/
def c2_literal_emitted : BusData := ⟨"entry1", "dev1", "initial_press", 3⟩

/-- C2 counterexample: with the literal `valueTypeID` strings
`"rocker state"` / `"rocker switch time"` of the claim, the code's
comparisons against `"VT_ROCKER_STATE"` / `"VT_ROCKER_SWITCH_TIME"` both
fail, so the emitted event keeps `subtype = 3` — not `4` as claimed. -/
theorem enet_c2_counterexample :
    handle_one_event sampleState c2_literal_event
        = Except.ok { sampleState with bus_events := [c2_literal_emitted] }
    ∧ c2_literal_emitted.subtype ≠ 4 :=
  ⟨by rfl, by decide⟩

/-- C2 (amended): with the `valueTypeID` strings the code actually
recognizes (`VT_ROCKER_STATE` / `VT_ROCKER_SWITCH_TIME`), a
`DOWN_BUTTON` state with switch time `0` on channel 3, addressed to a
registered event channel, emits exactly one button event with
`subtype = 4` and `type = "initial_press"`. -/
theorem enet_c2 (co : CoordState) (uid : String) (ch : Channel)
    (hmap : dictGet co.function_uid_map uid = some ch)
    (hkind : ch.kind = ChannelKind.eventChannel) :
    handle_one_event co
      ⟨EVENT_TYPE_OUTPUT_DEVICE_FUNCTION_CALLED,
       ⟨uid, [⟨VALUE_TYPE_ROCKER_STATE, PyVal.str "DOWN_BUTTON"⟩,
              ⟨VALUE_TYPE_ROCKER_SWITCH_TIME, PyVal.int 0⟩], 3⟩⟩
      = Except.ok { co with bus_events := co.bus_events ++
          [⟨ch.device.hass_device_entry_id, ch.device.uid,
            EVENT_TYPE_INITIAL_PRESS, 4⟩] } := by
  simp [handle_one_event, hmap, Channel.isStateful, hkind, pyGtZero,
        EVENT_TYPE_OUTPUT_DEVICE_FUNCTION_CALLED, VALUE_TYPE_ROCKER_STATE,
        VALUE_TYPE_ROCKER_SWITCH_TIME, EVENT_TYPE_INITIAL_PRESS,
        EVENT_TYPE_SHORT_RELEASE]

/-- Witness for `enet_c2` at the concrete sample state. -/
theorem enet_c2_witness :
    handle_one_event sampleState
      ⟨EVENT_TYPE_OUTPUT_DEVICE_FUNCTION_CALLED,
       ⟨"u1", [⟨VALUE_TYPE_ROCKER_STATE, PyVal.str "DOWN_BUTTON"⟩,
               ⟨VALUE_TYPE_ROCKER_SWITCH_TIME, PyVal.int 0⟩], 3⟩⟩
      = Except.ok { sampleState with bus_events :=
          [⟨"entry1", "dev1", EVENT_TYPE_INITIAL_PRESS, 4⟩] } :=
  enet_c2 sampleState "u1" sampleButtonChannel rfl rfl

/-! ## C3 — rocker UP release decoding -/

/-- The concrete event of the claim, with the spec's literal
`valueTypeID` strings. -/
def c3_literal_event : RawEvent :=
  ⟨"outputDeviceFunctionCalled",
   ⟨"u1", [⟨"rocker state", PyVal.str "UP_BUTTON"⟩,
           ⟨"rocker switch time", PyVal.int 550⟩], 3⟩⟩

/-- The button event the code actually emits for `c3_literal_event`. -/
def c3_literal_emitted : BusData := ⟨"entry1", "dev1", "initial_press", 3⟩

/-- C3 counterexample: with the literal `valueTypeID` string
`"rocker switch time"` of the claim, the code's comparison against
`"VT_ROCKER_SWITCH_TIME"` fails, the switch-time test is never made, and
the emitted event keeps `type = "initial_press"` — not `"short_release"`
as claimed. -/
theorem enet_c3_counterexample :
    handle_one_event sampleState c3_literal_event
        = Except.ok { sampleState with bus_events := [c3_literal_emitted] }
    ∧ c3_literal_emitted.type ≠ EVENT_TYPE_SHORT_RELEASE :=
  ⟨by rfl, by decide⟩

/-- C3 (amended): with the `valueTypeID` strings the code actually
recognizes (`VT_ROCKER_STATE` / `VT_ROCKER_SWITCH_TIME`), an `UP_BUTTON`
state with switch time `550 > 0` on channel 3, addressed to a registered
event channel, emits exactly one button event with `subtype = 3` and
`type = "short_release"`. -/
theorem enet_c3 (co : CoordState) (uid : String) (ch : Channel)
    (hmap : dictGet co.function_uid_map uid = some ch)
    (hkind : ch.kind = ChannelKind.eventChannel) :
    handle_one_event co
      ⟨EVENT_TYPE_OUTPUT_DEVICE_FUNCTION_CALLED,
       ⟨uid, [⟨VALUE_TYPE_ROCKER_STATE, PyVal.str "UP_BUTTON"⟩,
              ⟨VALUE_TYPE_ROCKER_SWITCH_TIME, PyVal.int 550⟩], 3⟩⟩
      = Except.ok { co with bus_events := co.bus_events ++
          [⟨ch.device.hass_device_entry_id, ch.device.uid,
            EVENT_TYPE_SHORT_RELEASE, 3⟩] } := by
  simp [handle_one_event, hmap, Channel.isStateful, hkind, pyGtZero,
        EVENT_TYPE_OUTPUT_DEVICE_FUNCTION_CALLED, VALUE_TYPE_ROCKER_STATE,
        VALUE_TYPE_ROCKER_SWITCH_TIME, EVENT_TYPE_INITIAL_PRESS,
        EVENT_TYPE_SHORT_RELEASE]

/-- Witness for `enet_c3` at the concrete sample state. -/
theorem enet_c3_witness :
    handle_one_event sampleState
      ⟨EVENT_TYPE_OUTPUT_DEVICE_FUNCTION_CALLED,
       ⟨"u1", [⟨VALUE_TYPE_ROCKER_STATE, PyVal.str "UP_BUTTON"⟩,
               ⟨VALUE_TYPE_ROCKER_SWITCH_TIME, PyVal.int 550⟩], 3⟩⟩
      = Except.ok { sampleState with bus_events :=
          [⟨"entry1", "dev1", EVENT_TYPE_SHORT_RELEASE, 3⟩] } :=
  enet_c3 sampleState "u1" sampleButtonChannel rfl rfl

/-! ## C4 — malformed values length on a button channel -/

/-- C4: a "device function called" event addressed to a registered
non-stateful channel whose `values` has length ≠ 2 only logs the
`"Expected 2 values"` warning — registry, bus events, update calls and
listener count are untouched — and the rest of the batch is processed
exactly as if the malformed event had produced nothing. -/
theorem enet_c4 (co : CoordState) (ev : RawEvent) (ch : Channel)
    (rest : List RawEvent)
    (hev : ev.event = EVENT_TYPE_OUTPUT_DEVICE_FUNCTION_CALLED)
    (hmap : dictGet co.function_uid_map ev.eventData.deviceFunctionUID
              = some ch)
    (hkind : ch.kind = ChannelKind.eventChannel)
    (hlen : ev.eventData.values.length ≠ 2) :
    handle_one_event co ev
        = Except.ok { co with warnings := co.warnings ++ ["Expected 2 values"] }
    ∧ handle_event co (ev :: rest)
        = handle_event
            { co with warnings := co.warnings ++ ["Expected 2 values"] } rest := by
  have h1 : handle_one_event co ev
      = Except.ok { co with warnings := co.warnings ++ ["Expected 2 values"] } := by
    rcases hv : ev.eventData.values with _ | ⟨a, _ | ⟨b, _ | ⟨c, t⟩⟩⟩
    · simp [handle_one_event, hev, hmap, hkind, Channel.isStateful, hv]
    · simp [handle_one_event, hev, hmap, hkind, Channel.isStateful, hv]
    · exact absurd (by simp [hv]) hlen
    · simp [handle_one_event, hev, hmap, hkind, Channel.isStateful, hv]
  exact ⟨h1, by simp [handle_event, h1]⟩

/-- A one-entry (malformed) button event at the registered button
channel `"u1"`. -/
def c4_event : RawEvent :=
  ⟨"outputDeviceFunctionCalled",
   ⟨"u1", [⟨"VT_ROCKER_STATE", PyVal.str "UP_BUTTON"⟩], 5⟩⟩

/-- Witness for `enet_c4`: the malformed event only logs a warning and
the following well-formed event of the batch is still processed. -/
theorem enet_c4_witness :
    handle_one_event sampleState c4_event
        = Except.ok { sampleState with warnings := ["Expected 2 values"] }
    ∧ handle_event sampleState [c4_event, c1_good_event]
        = handle_event { sampleState with warnings := ["Expected 2 values"] }
            [c1_good_event] :=
  enet_c4 sampleState c4_event sampleButtonChannel [c1_good_event]
    rfl rfl rfl (by decide)

/-! ## C5 — unmapped FunctionUID -/

/-- C5: a "device function called" event whose `deviceFunctionUID` is
absent from `function_uid_map` only logs the "does not map" warning — no
state is mutated, no bus event fired, no exception escapes — and the
rest of the batch is processed unchanged. -/
theorem enet_c5 (co : CoordState) (ev : RawEvent) (rest : List RawEvent)
    (hev : ev.event = EVENT_TYPE_OUTPUT_DEVICE_FUNCTION_CALLED)
    (hmap : dictGet co.function_uid_map ev.eventData.deviceFunctionUID
              = none) :
    handle_one_event co ev
        = Except.ok { co with warnings :=
            co.warnings ++ ["Function does not map to device"] }
    ∧ handle_event co (ev :: rest)
        = handle_event
            { co with warnings :=
                co.warnings ++ ["Function does not map to device"] } rest := by
  have h1 : handle_one_event co ev
      = Except.ok { co with warnings :=
          co.warnings ++ ["Function does not map to device"] } := by
    simp [handle_one_event, hev, hmap]
  exact ⟨h1, by simp [handle_event, h1]⟩

/-- An event whose FunctionUID `"ghost"` is registered nowhere, with an
arbitrary (even malformed) payload. -/
def c5_event : RawEvent :=
  ⟨"outputDeviceFunctionCalled",
   ⟨"ghost", [⟨"VT_ROCKER_STATE", PyVal.str "DOWN_BUTTON"⟩,
              ⟨"VT_ROCKER_SWITCH_TIME", PyVal.int 0⟩], 2⟩⟩

/-- Witness for `enet_c5`: the unmapped event only logs a warning and
the following well-formed event of the batch is still processed. -/
theorem enet_c5_witness :
    handle_one_event sampleState c5_event
        = Except.ok { sampleState with
            warnings := ["Function does not map to device"] }
    ∧ handle_event sampleState [c5_event, c1_good_event]
        = handle_event
            { sampleState with
                warnings := ["Function does not map to device"] }
            [c1_good_event] :=
  enet_c5 sampleState c5_event [c1_good_event] rfl rfl

/-! ## C7 — registry construction and lookup -/

/-- The channel the last declaration of `u` in a declaration list binds
it to (later entries take precedence, matching last-writer-wins of
repeated `dict.update`), `none` when `u` is declared nowhere.  This is
the spec-side characterization the built registry is compared with. -/
def last_declared (l : List (String × Channel)) (u : String) : Option Channel :=
  match l with
  | [] => none
  | (k, v) :: rest =>
      match last_declared rest u with
      | some w => some w
      | none => if k = u then some v else none

theorem dictGet_dictInsert (m : List (String × Channel)) (k : String)
    (v : Channel) (u : String) :
    dictGet (dictInsert m k v) u = if k = u then some v else dictGet m u := by
  induction m with
  | nil => simp [dictInsert, dictGet]
  | cons hd tl ih =>
      obtain ⟨k0, v0⟩ := hd
      by_cases h1 : k0 = k
      · subst h1
        by_cases h2 : k0 = u <;> simp [dictInsert, dictGet, h2]
      · by_cases h2 : k0 = u
        · subst h2
          have h3 : ¬ k = k0 := fun h => h1 h.symm
          simp [dictInsert, dictGet, h1, h3, ih]
        · simp [dictInsert, dictGet, h1, h2, ih]

theorem dictGet_dictUpdate (es m : List (String × Channel)) (u : String) :
    dictGet (dictUpdate m es) u =
      match last_declared es u with
      | some w => some w
      | none => dictGet m u := by
  induction es generalizing m with
  | nil => simp [dictUpdate, last_declared]
  | cons e es ih =>
      obtain ⟨k, v⟩ := e
      have hstep : dictUpdate m ((k, v) :: es) = dictUpdate (dictInsert m k v) es := rfl
      rw [hstep, ih]
      cases h : last_declared es u with
      | some w => simp [last_declared, h]
      | none =>
          rw [dictGet_dictInsert]
          simp only [last_declared, h]
          split_ifs <;> simp

theorem last_declared_append (l1 l2 : List (String × Channel)) (u : String) :
    last_declared (l1 ++ l2) u =
      match last_declared l2 u with
      | some w => some w
      | none => last_declared l1 u := by
  induction l1 with
  | nil => cases h : last_declared l2 u <;> simp [last_declared, h]
  | cons e l1 ih =>
      obtain ⟨k, v⟩ := e
      simp only [List.cons_append, last_declared]
      rw [List.append_eq, ih]
      cases h : last_declared l2 u <;> cases h1 : last_declared l1 u <;>
        simp [h, h1]

theorem dictGet_setup_fold (devices : List EnetDevice)
    (m : List (String × Channel)) (u : String) :
    dictGet (devices.foldl (fun acc d => dictUpdate acc d.func_uids) m) u =
      match last_declared (devices.map EnetDevice.func_uids).flatten u with
      | some w => some w
      | none => dictGet m u := by
  induction devices generalizing m with
  | nil => simp [last_declared]
  | cons d ds ih =>
      simp only [List.foldl_cons, List.map_cons, List.flatten_cons]
      rw [ih, last_declared_append, dictGet_dictUpdate]
      cases h : last_declared (ds.map EnetDevice.func_uids).flatten u <;>
        cases h1 : last_declared d.func_uids u <;> simp [h, h1]

/-- C7: after `setup_event_listeners`, looking a FunctionUID up in
`function_uid_map` yields exactly the channel of its last declaration
across the devices' declared pairs (last-writer-wins), and `none` — the
Python `dict.get` not-found result — for a UID no device declares. -/
theorem enet_c7 (devices : List EnetDevice) (u : String) :
    dictGet (setup_event_listeners devices) u =
      last_declared (devices.map EnetDevice.func_uids).flatten u := by
  have h0 : setup_event_listeners devices
      = devices.foldl (fun acc d => dictUpdate acc d.func_uids) [] := rfl
  rw [h0, dictGet_setup_fold]
  cases h : last_declared (devices.map EnetDevice.func_uids).flatten u <;>
    simp [dictGet, h]

/-! ## The button-decoding path, characterized once -/

theorem ite_and_ite {α : Type} (A B : Prop) [Decidable A] [Decidable B]
    (x y : α) :
    (if A then (if B then x else y) else y) = if A ∧ B then x else y := by
  by_cases hA : A <;> by_cases hB : B <;> simp [hA, hB]

/-- Any successful run of the loop body on a two-value event addressed
to a registered non-stateful channel appends exactly one bus event — its
`subtype` is the channel number, incremented exactly on a
`DOWN_BUTTON` rocker state — and changes nothing else. -/
theorem button_path_ok (co co2 : CoordState) (ev : RawEvent) (ch : Channel)
    (v0 v1 : ValueEntry)
    (hev : ev.event = EVENT_TYPE_OUTPUT_DEVICE_FUNCTION_CALLED)
    (hmap : dictGet co.function_uid_map ev.eventData.deviceFunctionUID
              = some ch)
    (hkind : ch.kind = ChannelKind.eventChannel)
    (hvals : ev.eventData.values = [v0, v1])
    (hok : handle_one_event co ev = Except.ok co2) :
    ∃ t : String, co2 = { co with bus_events := co.bus_events ++
      [⟨ch.device.hass_device_entry_id, ch.device.uid, t,
        if v0.valueTypeID = VALUE_TYPE_ROCKER_STATE
            ∧ v0.value = PyVal.str "DOWN_BUTTON"
        then ev.eventData.channelNumber + 1
        else ev.eventData.channelNumber⟩] } := by
  simp only [handle_one_event, hev, hmap, hvals, Channel.isStateful, hkind,
    if_pos rfl] at hok
  simp at hok
  by_cases hsw : v1.valueTypeID = VALUE_TYPE_ROCKER_SWITCH_TIME
  · cases hval : v1.value with
    | str s => simp [hsw, hval, pyGtZero] at hok
    | int n =>
        simp [hsw, hval, pyGtZero] at hok
        refine ⟨if (0 : Int) < n then EVENT_TYPE_SHORT_RELEASE
                else EVENT_TYPE_INITIAL_PRESS, ?_⟩
        rw [← ite_and_ite]
        exact hok.symm
  · simp [hsw] at hok
    refine ⟨EVENT_TYPE_INITIAL_PRESS, ?_⟩
    rw [← ite_and_ite]
    exact hok.symm

/-! ## C8 — the button branch is effect-free on channel state -/

/-- C8: when a two-value event addressed to a registered non-stateful
channel is handled successfully (it decodes to a button event), the
registry, the `update_values` call trace and the listener fan-out count
are exactly what they were — the branch only fires a bus event. -/
theorem enet_c8 (co co2 : CoordState) (ev : RawEvent) (ch : Channel)
    (v0 v1 : ValueEntry)
    (hev : ev.event = EVENT_TYPE_OUTPUT_DEVICE_FUNCTION_CALLED)
    (hmap : dictGet co.function_uid_map ev.eventData.deviceFunctionUID
              = some ch)
    (hkind : ch.kind = ChannelKind.eventChannel)
    (hvals : ev.eventData.values = [v0, v1])
    (hok : handle_one_event co ev = Except.ok co2) :
    co2.function_uid_map = co.function_uid_map
    ∧ co2.update_calls = co.update_calls
    ∧ co2.listener_notify_count = co.listener_notify_count := by
  obtain ⟨t, ht⟩ := button_path_ok co co2 ev ch v0 v1 hev hmap hkind hvals hok
  rw [ht]
  exact ⟨rfl, rfl, rfl⟩

/-- Witness for `enet_c8` at the concrete rocker press event. -/
theorem enet_c8_witness :
    ({ sampleState with
        bus_events := [⟨"entry1", "dev1", "initial_press", 4⟩] }
          : CoordState).function_uid_map = sampleState.function_uid_map
    ∧ ({ sampleState with
          bus_events := [⟨"entry1", "dev1", "initial_press", 4⟩] }
            : CoordState).update_calls = sampleState.update_calls
    ∧ ({ sampleState with
          bus_events := [⟨"entry1", "dev1", "initial_press", 4⟩] }
            : CoordState).listener_notify_count
        = sampleState.listener_notify_count :=
  enet_c8 sampleState _ c1_good_event sampleButtonChannel
    ⟨"VT_ROCKER_STATE", PyVal.str "DOWN_BUTTON"⟩
    ⟨"VT_ROCKER_SWITCH_TIME", PyVal.int 0⟩ rfl rfl rfl rfl rfl

/-! ## C9 — subtype is the plain channel number unless DOWN_BUTTON -/

/-- C9: on the button path, when the first value entry is not a
rocker-state entry carrying `"DOWN_BUTTON"` (wrong `valueTypeID` or a
different value), the emitted event's `subtype` is exactly the event's
`channelNumber`, with no increment. -/
theorem enet_c9 (co co2 : CoordState) (ev : RawEvent) (ch : Channel)
    (v0 v1 : ValueEntry)
    (hev : ev.event = EVENT_TYPE_OUTPUT_DEVICE_FUNCTION_CALLED)
    (hmap : dictGet co.function_uid_map ev.eventData.deviceFunctionUID
              = some ch)
    (hkind : ch.kind = ChannelKind.eventChannel)
    (hvals : ev.eventData.values = [v0, v1])
    (hnot : ¬ (v0.valueTypeID = VALUE_TYPE_ROCKER_STATE
                ∧ v0.value = PyVal.str "DOWN_BUTTON"))
    (hok : handle_one_event co ev = Except.ok co2) :
    ∃ t : String, co2 = { co with bus_events := co.bus_events ++
      [⟨ch.device.hass_device_entry_id, ch.device.uid, t,
        ev.eventData.channelNumber⟩] } := by
  obtain ⟨t, ht⟩ := button_path_ok co co2 ev ch v0 v1 hev hmap hkind hvals hok
  rw [if_neg hnot] at ht
  exact ⟨t, ht⟩

/-- An UP_BUTTON press on channel 7 at the registered button channel. -/
def c9_event : RawEvent :=
  ⟨"outputDeviceFunctionCalled",
   ⟨"u1", [⟨"VT_ROCKER_STATE", PyVal.str "UP_BUTTON"⟩,
           ⟨"VT_ROCKER_SWITCH_TIME", PyVal.int 0⟩], 7⟩⟩

/-- Witness for `enet_c9`: the UP press on channel 7 keeps
`subtype = 7`. -/
theorem enet_c9_witness :
    ∃ t : String,
      ({ sampleState with
          bus_events := [⟨"entry1", "dev1", "initial_press", 7⟩] }
            : CoordState)
        = { sampleState with bus_events := sampleState.bus_events ++
            [⟨sampleButtonChannel.device.hass_device_entry_id,
              sampleButtonChannel.device.uid, t,
              c9_event.eventData.channelNumber⟩] } :=
  enet_c9 sampleState _ c9_event sampleButtonChannel
    ⟨"VT_ROCKER_STATE", PyVal.str "UP_BUTTON"⟩
    ⟨"VT_ROCKER_SWITCH_TIME", PyVal.int 0⟩ rfl rfl rfl rfl (by decide) rfl

/-! ## C10 — stateful channels take any values length -/

/-- C10: an event addressed to a registered stateful channel (actuator
or sensor) always goes through `update_values` with the event's `values`
as given — the two-entry length check is only on the non-stateful
branch, so no anomaly is logged even for malformed lengths — followed by
exactly one listener fan-out. -/
theorem enet_c10 (co : CoordState) (ev : RawEvent) (ch : Channel)
    (hev : ev.event = EVENT_TYPE_OUTPUT_DEVICE_FUNCTION_CALLED)
    (hmap : dictGet co.function_uid_map ev.eventData.deviceFunctionUID
              = some ch)
    (hstateful : ch.isStateful) :
    handle_one_event co ev = Except.ok { co with
      function_uid_map :=
        dictInsert co.function_uid_map ev.eventData.deviceFunctionUID
          (ch.update_values ev.eventData.deviceFunctionUID
            ev.eventData.values),
      update_calls := co.update_calls
        ++ [(ev.eventData.deviceFunctionUID, ev.eventData.values)],
      listener_notify_count := co.listener_notify_count + 1 } := by
  simp [handle_one_event, hev, hmap, hstateful]

/-- A three-value (malformed-length) event at the registered actuator
`"u2"`. -/
def c10_event : RawEvent :=
  ⟨"outputDeviceFunctionCalled",
   ⟨"u2", [⟨"VT_ROCKER_STATE", PyVal.str "UP_BUTTON"⟩,
           ⟨"VT_ROCKER_SWITCH_TIME", PyVal.int 1⟩,
           ⟨"VT_EXTRA", PyVal.int 5⟩], 1⟩⟩

/-- Witness for `enet_c10`: a 3-entry values payload is accepted on the
actuator path without any anomaly. -/
theorem enet_c10_witness :
    handle_one_event sampleState c10_event = Except.ok { sampleState with
      function_uid_map :=
        dictInsert sampleState.function_uid_map
          c10_event.eventData.deviceFunctionUID
          (sampleActuator.update_values c10_event.eventData.deviceFunctionUID
            c10_event.eventData.values),
      update_calls :=
        [(c10_event.eventData.deviceFunctionUID, c10_event.eventData.values)],
      listener_notify_count := 1 } :=
  enet_c10 sampleState c10_event sampleActuator rfl rfl (Or.inl rfl)

/-! ## C6 — batch order is preserved in the emitted bus events -/

/-- The bus events one raw event contributes, as a function of the
registry it is handled under (a projection of the loop body: empty on
the ignored, unmapped, stateful, malformed and raising branches; one
event on the button branch). -/
def event_emission (m : List (String × Channel)) (ev : RawEvent) :
    List BusData :=
  if ev.event = EVENT_TYPE_OUTPUT_DEVICE_FUNCTION_CALLED then
    match dictGet m ev.eventData.deviceFunctionUID with
    | none => []
    | some device =>
        if device.isStateful then []
        else
          let subtype := ev.eventData.channelNumber
          match ev.eventData.values with
          | [v0, v1] =>
              let subtype :=
                if v0.valueTypeID = VALUE_TYPE_ROCKER_STATE then
                  if v0.value = PyVal.str "DOWN_BUTTON" then subtype + 1
                  else subtype
                else subtype
              if v1.valueTypeID = VALUE_TYPE_ROCKER_SWITCH_TIME then
                match pyGtZero v1.value with
                | Except.error _ => []
                | Except.ok b =>
                    [⟨device.device.hass_device_entry_id, device.device.uid,
                      if b then EVENT_TYPE_SHORT_RELEASE
                      else EVENT_TYPE_INITIAL_PRESS, subtype⟩]
              else
                [⟨device.device.hass_device_entry_id, device.device.uid,
                  EVENT_TYPE_INITIAL_PRESS, subtype⟩]
          | _ => []
  else []

/-- The registry after one raw event is handled (a projection of the
loop body: only the stateful branch rewrites an entry). -/
def map_after (m : List (String × Channel)) (ev : RawEvent) :
    List (String × Channel) :=
  if ev.event = EVENT_TYPE_OUTPUT_DEVICE_FUNCTION_CALLED then
    match dictGet m ev.eventData.deviceFunctionUID with
    | none => m
    | some device =>
        if device.isStateful then
          dictInsert m ev.eventData.deviceFunctionUID
            (device.update_values ev.eventData.deviceFunctionUID
              ev.eventData.values)
        else m
  else m

/-- The bus events of a whole batch, in the batch's order, each computed
under the registry as of its own position. -/
def batch_emissions (m : List (String × Channel)) :
    List RawEvent → List BusData
  | [] => []
  | ev :: rest => event_emission m ev ++ batch_emissions (map_after m ev) rest

/-- A successful run of the loop body appends exactly
`event_emission` to the fired bus events and turns the registry into
`map_after`. -/
theorem handle_one_ok_decomp (co co2 : CoordState) (ev : RawEvent)
    (h : handle_one_event co ev = Except.ok co2) :
    co2.bus_events = co.bus_events ++ event_emission co.function_uid_map ev
    ∧ co2.function_uid_map = map_after co.function_uid_map ev := by
  by_cases hev : ev.event = EVENT_TYPE_OUTPUT_DEVICE_FUNCTION_CALLED
  · cases hmap : dictGet co.function_uid_map ev.eventData.deviceFunctionUID with
    | none =>
        simp [handle_one_event, hev, hmap] at h
        simp [event_emission, map_after, hev, hmap, ← h]
    | some device =>
        by_cases hs : device.isStateful
        · simp [handle_one_event, hev, hmap, hs] at h
          simp [event_emission, map_after, hev, hmap, hs, ← h]
        · rcases hv : ev.eventData.values with _ | ⟨a, _ | ⟨b, _ | ⟨c, t⟩⟩⟩
          · simp [handle_one_event, hev, hmap, hs, hv] at h
            simp [event_emission, map_after, hev, hmap, hs, hv, ← h]
          · simp [handle_one_event, hev, hmap, hs, hv] at h
            simp [event_emission, map_after, hev, hmap, hs, hv, ← h]
          · by_cases hsw : b.valueTypeID = VALUE_TYPE_ROCKER_SWITCH_TIME
            · cases hbv : b.value with
              | str s =>
                  simp [handle_one_event, hev, hmap, hs, hv, hsw, hbv,
                    pyGtZero] at h
              | int n =>
                  simp [handle_one_event, hev, hmap, hs, hv, hsw, hbv,
                    pyGtZero] at h
                  simp [event_emission, map_after, hev, hmap, hs, hv, hsw,
                    hbv, pyGtZero, ← h]
            · simp [handle_one_event, hev, hmap, hs, hv, hsw] at h
              simp [event_emission, map_after, hev, hmap, hs, hv, hsw, ← h]
          · simp [handle_one_event, hev, hmap, hs, hv] at h
            simp [event_emission, map_after, hev, hmap, hs, hv, ← h]
  · simp [handle_one_event, hev] at h
    simp [event_emission, map_after, hev, ← h]

/-- C6: when a batch is handled without an exception, the fired bus
events are extended by exactly `batch_emissions` — the per-event
emissions concatenated in the batch's original order, each computed at
its own position — so the discrete events preserve the batch's relative
order. -/
theorem enet_c6 (batch : List RawEvent) (co co2 : CoordState)
    (h : handle_event co batch = (co2, none)) :
    co2.bus_events
      = co.bus_events ++ batch_emissions co.function_uid_map batch := by
  induction batch generalizing co with
  | nil =>
      simp [handle_event] at h
      simp [batch_emissions, ← h]
  | cons ev rest ih =>
      cases hone : handle_one_event co ev with
      | error e => simp [handle_event, hone] at h
      | ok co1 =>
          simp only [handle_event, hone] at h
          obtain ⟨hbus, hmap⟩ := handle_one_ok_decomp co co1 ev hone
          rw [ih co1 h, hbus, hmap, batch_emissions, List.append_assoc]

/-- Witness for `enet_c6`: a batch of two button events fires their two
bus events in batch order. -/
theorem enet_c6_witness :
    ({ sampleState with bus_events :=
        [⟨"entry1", "dev1", "initial_press", 4⟩,
         ⟨"entry1", "dev1", "initial_press", 7⟩] } : CoordState).bus_events
      = sampleState.bus_events
        ++ batch_emissions sampleState.function_uid_map
            [c1_good_event, c9_event] :=
  enet_c6 [c1_good_event, c9_event] sampleState _ rfl

end Enet
